import Mathlib

/-!
# Shopify–Moysklad product sync: a shallow embedding

This file embeds the reconciliation and sync-orchestration engine of
`src/services/pruduct_sync_service.py` (class `ProductSyncService`) in Lean 4
and proves the testable properties of the specification against it.

Modelling conventions:
* timestamps are `Int` (hours since an arbitrary epoch, so the 24-hour
  lookback window is the literal `24`);
* prices are `ℚ` (Python compares the raw price attributes with `!=`, an
  exact comparison with no epsilon; rationals capture exactness);
* a Python coroutine that may raise is an `Except String` value; a collection
  of already-settled task outcomes is a `List (Except E A)`
  (`asyncio.gather(..., return_exceptions=True)` hands the scheduler exactly
  such a list);
* optional attributes (`updated_at` probed with `hasattr`, `stock`,
  `inventory_quantity` probed with `getattr(..., None)`) are `Option` fields;
* logging calls have no observable effect and are not modelled.
-/

/-- `BATCH_SIZE = 50` from the top of `pruduct_sync_service.py`. -/
def BATCH_SIZE : Nat := 50

/-- `MAX_CONCURRENT_TASKS = 5` from the top of `pruduct_sync_service.py`. -/
def MAX_CONCURRENT_TASKS : Nat := 5

/-- A Moysklad product record as used by `ProductSyncService`:
`id`, identity key `code`, optional `price`, optional `stock`,
optional `updated_at`. -/
structure MoyskladProduct where
  id : String
  code : String
  price : Option ℚ
  stock : Option Int
  updated_at : Option Int
  deriving Repr, DecidableEq

/-- A Shopify product record as used by `ProductSyncService`:
`id`, identity key `sku`, `variant_id` and `inventory_item_id` used by the
price / inventory update calls, optional `inventory_quantity`, optional
`price`, optional `updated_at`. -/
structure ShopifyProduct where
  id : String
  sku : String
  variant_id : String
  inventory_item_id : String
  inventory_quantity : Option Int
  price : Option ℚ
  updated_at : Option Int
  deriving Repr, DecidableEq

/-- Fuel-driven slicing helper: `chunksOfAux n fuel xs` splits `xs` into
consecutive slices of at most `n` elements, mirroring the Python loop
`for i in range(0, len(xs), n): batch = xs[i:i+n]`.  The fuel argument makes
the recursion structural; `fuel ≥ xs.length` is always enough when `n ≥ 1`. -/
def chunksOfAux (n : Nat) : Nat → List α → List (List α)
  | 0, _ => []
  | _ + 1, [] => []
  | fuel + 1, x :: xs => (x :: xs).take n :: chunksOfAux n fuel ((x :: xs).drop n)

/-- `chunksOf n xs`: the list of consecutive batches `xs[i:i+n]` produced by
`for i in range(0, len(xs), n)`. -/
def chunksOf (n : Nat) (xs : List α) : List (List α) :=
  chunksOfAux n xs.length xs

/-- The settled outcome of one task, as `asyncio.gather(*batch,
return_exceptions=True)` delivers it: either the task's return value or the
exception it raised, captured as a value. -/
def exceptOk : Except E A → Option A
  | .ok a => some a
  | .error _ => none

/-- `True` exactly when the settled outcome is a success. -/
def exceptIsOk : Except E A → Bool
  | .ok _ => true
  | .error _ => false

/-- The inner result loop of `_execute_tasks_with_limited_concurrency`
(lines 200–204): walk one gathered batch, log-and-drop every exception,
append every success to the accumulator. -/
def processBatchResults (batch : List (Except E A)) (acc : List A) : List A :=
  batch.foldl
    (fun racc r =>
      match r with
      | .error _ => racc
      | .ok v => racc ++ [v])
    acc

/-- `ProductSyncService._execute_tasks_with_limited_concurrency` (lines
184–206): slice the task list into groups of `MAX_CONCURRENT_TASKS`, gather
each group with `return_exceptions=True`, then keep only the successful
results (exceptions are logged and dropped). -/
def executeTasksWithLimitedConcurrency (tasks : List (Except E A)) : List A :=
  (chunksOf MAX_CONCURRENT_TASKS tasks).foldl
    (fun results batch => processBatchResults batch results) []

/-- Count of successfully settled outcomes in a task list. -/
def countOk (tasks : List (Except E A)) : Nat :=
  (tasks.filter (fun t => exceptIsOk t)).length

/-- Modelled from the spec: the retry decorator `@retry(stop=stop_after_attempt(3),
wait=wait_fixed(2))` comes from the third-party `tenacity` library, whose code is
not among the repository sources; the spec (§4.5) describes it as "maximum 3
attempts total, fixed inter-attempt delay", with the final error propagated.
`retryGo call wait attempt remaining` performs attempt number `attempt`
(1-based) with `remaining` further attempts allowed, and returns the final
outcome, the total number of invocations of `call`, and the total delay slept
between attempts. -/
def retryGo (call : Nat → Except E A) (wait : Nat) :
    Nat → Nat → Except E A × Nat × Nat
  | attempt, 0 => (call attempt, attempt, wait * (attempt - 1))
  | attempt, remaining + 1 =>
    match call attempt with
    | .ok a => (.ok a, attempt, wait * (attempt - 1))
    | .error _ => retryGo call wait (attempt + 1) remaining

/-- The retry executor: run `call` up to `maxAttempts` times total, sleeping
`wait` time units between consecutive attempts. -/
def retryWrapped (maxAttempts wait : Nat) (call : Nat → Except E A) :
    Except E A × Nat × Nat :=
  retryGo call wait 1 (maxAttempts - 1)

/-- The per-record reconciliation outcome: create a new counterpart, update an
existing one with the given payload, or skip the record. -/
inductive SyncAction (β : Type) where
  | create (payload : β)
  | update (payload : β)
  | skip
  deriving Repr, DecidableEq

/-- `_update_shopify_product` (lines 234–272): skip when both records carry
`updated_at` and the Moysklad side is not strictly newer; otherwise translate
the record, overwrite the payload's `id` with the existing Shopify id
(line 263), and issue the update.  The field-level translator
`moysklad_to_shopify_product` is a parameter `conv`. -/
def updateShopifyProductAction (conv : MoyskladProduct → ShopifyProduct)
    (ms : MoyskladProduct) (sp : ShopifyProduct) : SyncAction ShopifyProduct :=
  match ms.updated_at, sp.updated_at with
  | some mu, some su =>
    if mu ≤ su then .skip
    else .update { conv ms with id := sp.id }
  | _, _ => .update { conv ms with id := sp.id }

/-- `_update_moysklad_product` (lines 300–338): the mirror-image of
`updateShopifyProductAction`, overwriting the payload's `id` with the existing
Moysklad id (line 329). -/
def updateMoyskladProductAction (conv : ShopifyProduct → MoyskladProduct)
    (sp : ShopifyProduct) (ms : MoyskladProduct) : SyncAction MoyskladProduct :=
  match sp.updated_at, ms.updated_at with
  | some su, some mu =>
    if su ≤ mu then .skip
    else .update { conv sp with id := ms.id }
  | _, _ => .update { conv sp with id := ms.id }

/-- The per-record branch of `_sync_moysklad_to_shopify` (lines 129–136):
look the Moysklad code up in the Shopify index; update when a counterpart
exists (subject to the staleness skip inside `_update_shopify_product`),
create otherwise. -/
def msToShopifyAction (conv : MoyskladProduct → ShopifyProduct)
    (shopify_by_sku : String → Option ShopifyProduct)
    (ms : MoyskladProduct) : SyncAction ShopifyProduct :=
  match shopify_by_sku ms.code with
  | some sp => updateShopifyProductAction conv ms sp
  | none => .create (conv ms)

/-- The per-record branch of `_sync_shopify_to_moysklad` (lines 169–176). -/
def spToMoyskladAction (conv : ShopifyProduct → MoyskladProduct)
    (moysklad_by_code : String → Option MoyskladProduct)
    (sp : ShopifyProduct) : SyncAction MoyskladProduct :=
  match moysklad_by_code sp.sku with
  | some ms => updateMoyskladProductAction conv sp ms
  | none => .create (conv sp)

/-- The dict comprehension `{p.code: p for p in products if p.code}`
(line 84): only non-empty codes become keys, and a later duplicate key
overwrites an earlier one (last-write-wins). -/
def indexByCode (ps : List MoyskladProduct) : String → Option MoyskladProduct :=
  fun k => if k = "" then none else (ps.filter (fun p => p.code = k)).getLast?

/-- The dict comprehension `{p.sku: p for p in products if p.sku}` (line 85). -/
def indexBySku (ps : List ShopifyProduct) : String → Option ShopifyProduct :=
  fun k => if k = "" then none else (ps.filter (fun p => p.sku = k)).getLast?

/-- `_sync_moysklad_to_shopify` (lines 104–142): filter to records with a
non-empty code, slice into batches of `BATCH_SIZE`, and classify each record
into its action. -/
def syncMoyskladToShopifyActions (conv : MoyskladProduct → ShopifyProduct)
    (shopify_by_sku : String → Option ShopifyProduct)
    (moysklad_products : List MoyskladProduct) : List (SyncAction ShopifyProduct) :=
  let valid_products := moysklad_products.filter (fun p => p.code ≠ "")
  ((chunksOf BATCH_SIZE valid_products).map
    (fun batch => batch.map (msToShopifyAction conv shopify_by_sku))).flatten

/-- `_sync_shopify_to_moysklad` (lines 144–182). -/
def syncShopifyToMoyskladActions (conv : ShopifyProduct → MoyskladProduct)
    (moysklad_by_code : String → Option MoyskladProduct)
    (shopify_products : List ShopifyProduct) : List (SyncAction MoyskladProduct) :=
  let valid_products := shopify_products.filter (fun p => p.sku ≠ "")
  ((chunksOf BATCH_SIZE valid_products).map
    (fun batch => batch.map (spToMoyskladAction conv moysklad_by_code))).flatten

/-- The remote write issued by `_update_shopify_inventory`. -/
structure InventoryWrite where
  product_id : String
  inventory_item_id : String
  quantity : Int
  deriving Repr, DecidableEq

/-- `_update_shopify_inventory` (lines 405–439): the Moysklad stock defaults
to 0 when absent; when the Shopify side's `inventory_quantity` is known and
equal, the update is skipped (`none`); otherwise the write is issued. -/
def updateShopifyInventoryWrite (ms : MoyskladProduct) (sp : ShopifyProduct) :
    Option InventoryWrite :=
  let current_stock := sp.inventory_quantity
  let moysklad_stock := ms.stock.getD 0
  match current_stock with
  | some c =>
    if c = moysklad_stock then none
    else some ⟨sp.id, sp.inventory_item_id, moysklad_stock⟩
  | none => some ⟨sp.id, sp.inventory_item_id, moysklad_stock⟩

/-- A remote price-update call issued by the price sync phase. -/
inductive PriceUpdate where
  | shopify (product_id variant_id : String) (price : ℚ)
  | moysklad (product_id : String) (price : ℚ)
  deriving Repr, DecidableEq

/-- Modelled from the spec: `utils.converters.price_to_moysklad_format` is
imported by the sync service but its module is not among the repository
sources.  The spec (§4.3, §9) describes the price translation as an exact
minor/major currency-unit conversion, and the repository's
`models/product.py` divides Moysklad kopeck values by 100 to produce Shopify
prices; the conversion into Moysklad's minor unit is therefore
multiplication by 100. -/
def price_to_moysklad_format (price : ℚ) : ℚ := price * 100

/-- Loop body of `_sync_prices_moysklad_to_shopify` (lines 516–519): `p` is
the Moysklad product's price (non-`None` for every valid pair); an update is
queued only when the Shopify price differs from it, and the price sent is
`p` itself (no conversion in this direction). -/
def msToShopifyPriceAction (sp : ShopifyProduct) (p : ℚ) : Option PriceUpdate :=
  if sp.price ≠ some p then some (.shopify sp.id sp.variant_id p) else none

/-- Loop body of `_sync_prices_shopify_to_moysklad` (lines 562–568): the
Shopify price `p` is first converted with `price_to_moysklad_format`, then
compared exactly against the Moysklad side's current price. -/
def shopifyToMsPriceAction (ms : MoyskladProduct) (p : ℚ) : Option PriceUpdate :=
  let moysklad_price := price_to_moysklad_format p
  if ms.price ≠ some moysklad_price then some (.moysklad ms.id moysklad_price)
  else none

/-- The `valid_products` comprehension of `_sync_prices_moysklad_to_shopify`
(lines 501–505): pairs with a non-empty code, a non-`None` price, and a
Shopify counterpart under that code. -/
def validPricePairsMsToShopify (moysklad_products : List MoyskladProduct)
    (shopify_by_sku : String → Option ShopifyProduct) :
    List (MoyskladProduct × ShopifyProduct × ℚ) :=
  moysklad_products.filterMap (fun m =>
    if m.code ≠ "" then
      match m.price, shopify_by_sku m.code with
      | some p, some sp => some (m, sp, p)
      | _, _ => none
    else none)

/-- The `valid_products` comprehension of `_sync_prices_shopify_to_moysklad`
(lines 547–551). -/
def validPricePairsShopifyToMs (shopify_products : List ShopifyProduct)
    (moysklad_by_code : String → Option MoyskladProduct) :
    List (ShopifyProduct × MoyskladProduct × ℚ) :=
  shopify_products.filterMap (fun s =>
    if s.sku ≠ "" then
      match s.price, moysklad_by_code s.sku with
      | some p, some ms => some (s, ms, p)
      | _, _ => none
    else none)

/-- `_sync_prices_moysklad_to_shopify` (lines 484–528): the list of price
updates issued, batch by batch. -/
def syncPricesMoyskladToShopify (moysklad_products : List MoyskladProduct)
    (shopify_by_sku : String → Option ShopifyProduct) : List PriceUpdate :=
  ((chunksOf BATCH_SIZE (validPricePairsMsToShopify moysklad_products shopify_by_sku)).map
    (fun batch => batch.filterMap (fun x => msToShopifyPriceAction x.2.1 x.2.2))).flatten

/-- `_sync_prices_shopify_to_moysklad` (lines 530–577). -/
def syncPricesShopifyToMoysklad (shopify_products : List ShopifyProduct)
    (moysklad_by_code : String → Option MoyskladProduct) : List PriceUpdate :=
  ((chunksOf BATCH_SIZE (validPricePairsShopifyToMs shopify_products moysklad_by_code)).map
    (fun batch => batch.filterMap (fun x => shopifyToMsPriceAction x.2.1 x.2.2))).flatten

/-- `sync_product_prices` (lines 441–482), direction dispatch on
`config.price_sync_direction` (lines 470–477): an unrecognized direction is
logged as a warning and the method returns normally with no price updates
issued. -/
def sync_product_prices (price_sync_direction : String)
    (moysklad_products : List MoyskladProduct)
    (shopify_products : List ShopifyProduct) : List PriceUpdate :=
  let moysklad_by_code := indexByCode moysklad_products
  let shopify_by_sku := indexBySku shopify_products
  if price_sync_direction = "moysklad_to_shopify" then
    syncPricesMoyskladToShopify moysklad_products shopify_by_sku
  else if price_sync_direction = "shopify_to_moysklad" then
    syncPricesShopifyToMoysklad shopify_products moysklad_by_code
  else []

/-- `run_complete_sync` (lines 628–644) / `run_incremental_sync` (lines
646–663): the three phases run in sequence and any raised exception
propagates.  The products and inventory phases are abstracted by their
outcomes; the price phase is `sync_product_prices`, which never raises on an
unrecognized direction. -/
def run_complete_sync (productsPhase inventoryPhase : Except String Unit)
    (price_sync_direction : String)
    (moysklad_products : List MoyskladProduct)
    (shopify_products : List ShopifyProduct) : Except String (List PriceUpdate) :=
  match productsPhase with
  | .error e => .error e
  | .ok _ =>
    match inventoryPhase with
    | .error e => .error e
    | .ok _ =>
      .ok (sync_product_prices price_sync_direction moysklad_products shopify_products)

/-- Lines 57–64 of `sync_products`: the `modified_since` cutoff.  With
`full_sync=False` and a watermark, the watermark; with `full_sync=False` and
no watermark, `now − 24h`; with `full_sync=True`, `None`. -/
def modifiedSinceProducts (full_sync : Bool) (last_sync_time : Option Int)
    (now : Int) : Option Int :=
  if full_sync = false ∧ last_sync_time.isSome then last_sync_time
  else if full_sync then none
  else some (now - 24)

/-- Lines 352–355 of `sync_product_inventory`: `modified_since` starts as
`None` and is set only when `full_sync` is false and a watermark exists —
there is no 24-hour default in this phase. -/
def modifiedSinceInventory (full_sync : Bool) (last_sync_time : Option Int) :
    Option Int :=
  if full_sync = false ∧ last_sync_time.isSome then last_sync_time else none

/-- Lines 453–456 of `sync_product_prices`: identical shape to the inventory
phase — no 24-hour default. -/
def modifiedSincePrices (full_sync : Bool) (last_sync_time : Option Int) :
    Option Int :=
  if full_sync = false ∧ last_sync_time.isSome then last_sync_time else none

/-- The collaborators `sync_products` calls, abstracted: the two catalog
fetches (each taking the optional `modified_since` cutoff and possibly
raising) and the two field-level record translators. -/
structure ProductFetchEnv where
  moyskladFetch : Option Int → Except String (List MoyskladProduct)
  shopifyFetch : Option Int → Except String (List ShopifyProduct)
  msToShopifyConv : MoyskladProduct → ShopifyProduct
  shopifyToMsConv : ShopifyProduct → MoyskladProduct

/-- `sync_products` (lines 45–102).  The first component is the call's
outcome — the pair of per-direction action lists on success, the raised
exception otherwise; the second component is the orchestrator's
`last_sync_time` field after the call returns.  The field is written (to the
run's start timestamp, line 94) only after both fetch rounds and both
directions have completed; any raised exception leaves it untouched. -/
def sync_products (env : ProductFetchEnv) (last_sync_time : Option Int)
    (full_sync : Bool) (start_time now : Int) :
    Except String (List (SyncAction ShopifyProduct) × List (SyncAction MoyskladProduct))
      × Option Int :=
  let modified_since := modifiedSinceProducts full_sync last_sync_time now
  match env.moyskladFetch modified_since with
  | .error e => (.error e, last_sync_time)
  | .ok moysklad_products =>
    match env.shopifyFetch modified_since with
    | .error e => (.error e, last_sync_time)
    | .ok shopify_products =>
      match (if full_sync = false ∧ modified_since.isSome then
               env.moyskladFetch none
             else .ok moysklad_products) with
      | .error e => (.error e, last_sync_time)
      | .ok all_moysklad_products =>
        match (if full_sync = false ∧ modified_since.isSome then
                 env.shopifyFetch none
               else .ok shopify_products) with
        | .error e => (.error e, last_sync_time)
        | .ok all_shopify_products =>
          let moysklad_by_code := indexByCode all_moysklad_products
          let shopify_by_sku := indexBySku all_shopify_products
          let msActions :=
            syncMoyskladToShopifyActions env.msToShopifyConv shopify_by_sku moysklad_products
          let spActions :=
            syncShopifyToMoyskladActions env.shopifyToMsConv moysklad_by_code shopify_products
          (.ok (msActions, spActions), some start_time)

/-- A concrete field-level translator for witnesses: carries the identity key
and price across, leaves the rest blank. -/
def sampleConv : MoyskladProduct → ShopifyProduct :=
  fun m => ⟨m.id, m.code, "", "", none, m.price, m.updated_at⟩

/-- A concrete reverse translator for witnesses. -/
def sampleConvBack : ShopifyProduct → MoyskladProduct :=
  fun s => ⟨s.id, s.sku, s.price, none, s.updated_at⟩

/-- A Moysklad record whose `updated_at` (9) is strictly newer than
`sampleSp`'s (7). -/
def sampleMsNewer : MoyskladProduct := ⟨"m1", "X1", some 10, some 3, some 9⟩

/-- A Shopify record with stock 3, price 19.99 and `updated_at` 7. -/
def sampleSp : ShopifyProduct := ⟨"s1", "X1", "v1", "i1", some 3, some (1999/100), some 7⟩

/-- A Moysklad record whose price is 1999 in Moysklad's minor unit
(kopecks) — i.e. exactly `sampleSp`'s 19.99 after unit conversion. -/
def sampleMsKopeck : MoyskladProduct := ⟨"m3", "X1", some 1999, some 3, some 9⟩

/-- The update payload the reconciliation builds for
`(sampleMsNewer, sampleSp)`: the translated record carrying the existing
Shopify id. -/
def sampleUpdatePayload : ShopifyProduct := { sampleConv sampleMsNewer with id := sampleSp.id }

/-- An environment whose Moysklad catalog fetch always raises. -/
def failingFetchEnv : ProductFetchEnv where
  moyskladFetch := fun _ => .error "boom"
  shopifyFetch := fun _ => .ok []
  msToShopifyConv := sampleConv
  shopifyToMsConv := sampleConvBack

/-- A retry target that fails on the first two attempts and succeeds on the
third. -/
def sampleRetryCall : Nat → Except String Nat := fun i =>
  match i with
  | 1 => .error "e1"
  | 2 => .error "e2"
  | _ => .ok 7


theorem chunksOfAux_flatten (n : Nat) (hn : n ≠ 0) :
    ∀ (fuel : Nat) (xs : List α), xs.length ≤ fuel →
      (chunksOfAux n fuel xs).flatten = xs := by
  intro fuel
  induction fuel with
  | zero =>
    intro xs hxs
    have : xs = [] := List.length_eq_zero.mp (Nat.le_zero.mp hxs)
    simp [this, chunksOfAux]
  | succ m ih =>
    intro xs hxs
    match xs with
    | [] => simp [chunksOfAux]
    | x :: rest =>
      have hlen : ((x :: rest).drop n).length ≤ m := by
        have h1 : ((x :: rest).drop n).length = (x :: rest).length - n := by
          simp [List.length_drop]
        have h2 : (x :: rest).length - n ≤ (x :: rest).length - 1 :=
          Nat.sub_le_sub_left (Nat.one_le_iff_ne_zero.mpr hn) _
        have h3 : (x :: rest).length - 1 = rest.length := by simp
        omega
      calc (chunksOfAux n (m + 1) (x :: rest)).flatten
          = (x :: rest).take n ++ (chunksOfAux n m ((x :: rest).drop n)).flatten := by
            simp [chunksOfAux]
        _ = (x :: rest).take n ++ (x :: rest).drop n := by rw [ih _ hlen]
        _ = x :: rest := List.take_append_drop n (x :: rest)

/-- Joining the batches recovers the original task list: every submitted item
appears in exactly one batch, in order. -/
theorem chunksOf_flatten (n : Nat) (hn : n ≠ 0) (xs : List α) :
    (chunksOf n xs).flatten = xs :=
  chunksOfAux_flatten n hn xs.length xs le_rfl

theorem processBatchResults_eq (batch : List (Except E A)) :
    ∀ acc : List A, processBatchResults batch acc = acc ++ batch.filterMap exceptOk := by
  induction batch with
  | nil => intro acc; simp [processBatchResults]
  | cons r rest ih =>
    intro acc
    match r with
    | .error e => simpa [processBatchResults, List.filterMap, exceptOk] using ih acc
    | .ok v =>
      have := ih (acc ++ [v])
      simp only [processBatchResults, List.foldl] at this ⊢
      simp [this, exceptOk]

theorem executeTasks_foldl_eq (chunks : List (List (Except E A))) :
    ∀ acc : List A,
      chunks.foldl (fun results batch => processBatchResults batch results) acc
        = acc ++ chunks.flatten.filterMap exceptOk := by
  induction chunks with
  | nil => intro acc; simp
  | cons c rest ih =>
    intro acc
    simp only [List.foldl, List.flatten, List.filterMap_append]
    rw [processBatchResults_eq, ih, List.append_assoc]

/-- The scheduler's return value is exactly the successful outcomes, in
submission order. -/
theorem executeTasks_eq_filterMap (tasks : List (Except E A)) :
    executeTasksWithLimitedConcurrency tasks = tasks.filterMap exceptOk := by
  unfold executeTasksWithLimitedConcurrency
  rw [executeTasks_foldl_eq, chunksOf_flatten MAX_CONCURRENT_TASKS (by decide)]
  simp

theorem length_filterMap_exceptOk (tasks : List (Except E A)) :
    (tasks.filterMap exceptOk).length = countOk tasks := by
  induction tasks with
  | nil => rfl
  | cons t rest ih =>
    cases t with
    | ok v => simp [exceptOk, exceptIsOk, countOk, List.filter_cons] at ih ⊢; omega
    | error e => simpa [exceptOk, exceptIsOk, countOk, List.filter_cons] using ih

theorem map_ok_filterMap_sublist (tasks : List (Except E A)) :
    ((tasks.filterMap exceptOk).map Except.ok).Sublist tasks := by
  induction tasks with
  | nil => simp
  | cons t rest ih =>
    cases t with
    | ok v => simpa [exceptOk] using List.Sublist.cons₂ (Except.ok v) ih
    | error e => simpa [exceptOk] using List.Sublist.cons (Except.error e) ih

/-- C1 (amended): every action handed to the batch scheduler lands in exactly
one concurrency batch (flattening the batches recovers the submitted list,
so each action is gathered exactly once), per-action failures are captured by
`gather(..., return_exceptions=True)` and never raised, and the value the
scheduler returns is the list of **successful** outcomes in submission
order — its length is the number of successes, not the full count N. -/
theorem claim_C1_scheduler_amended (E A : Type) (tasks : List (Except E A)) :
    (chunksOf MAX_CONCURRENT_TASKS tasks).flatten = tasks ∧
    executeTasksWithLimitedConcurrency tasks = tasks.filterMap exceptOk ∧
    (executeTasksWithLimitedConcurrency tasks).length = countOk tasks := by
  refine ⟨chunksOf_flatten MAX_CONCURRENT_TASKS (by decide) tasks,
    executeTasks_eq_filterMap tasks, ?_⟩
  rw [executeTasks_eq_filterMap]
  exact length_filterMap_exceptOk tasks

/-- C1 (counterexample): with two tasks of which one fails, the scheduler
returns a single outcome, not two — failed actions are logged and dropped
from the returned result set, so the claim "returns exactly N per-action
outcomes" is false on the code. -/
theorem claim_C1_scheduler_counterexample :
    (executeTasksWithLimitedConcurrency
        [Except.ok (0 : Nat), Except.error "boom"]).length ≠ 2 := by
  decide

/-- C10: the batch scheduler is total with respect to per-task failures —
every per-task exception is captured as a value by the gather and dropped
after logging, never re-raised (the function is a plain total function on
settled outcomes), and the returned results are exactly the successful
outcomes in submission order (their `Except.ok` injection is a sublist of
the submitted task list). -/
theorem claim_C10_scheduler_total (E A : Type) (tasks : List (Except E A)) :
    executeTasksWithLimitedConcurrency tasks = tasks.filterMap exceptOk ∧
    ((executeTasksWithLimitedConcurrency tasks).map Except.ok).Sublist tasks := by
  refine ⟨executeTasks_eq_filterMap tasks, ?_⟩
  rw [executeTasks_eq_filterMap]
  exact map_ok_filterMap_sublist tasks

/-- C2: `sync_products` leaves the watermark untouched whenever it raises
(in particular when a catalog fetch fails), and assigns it — to the run's
start timestamp — exactly when the run completes without a fatal error. -/
theorem claim_C2_watermark (env : ProductFetchEnv) (lst : Option Int)
    (full_sync : Bool) (start_time now : Int) :
    ((∃ e, (sync_products env lst full_sync start_time now).1 = .error e) →
      (sync_products env lst full_sync start_time now).2 = lst) ∧
    (∀ r, (sync_products env lst full_sync start_time now).1 = .ok r →
      (sync_products env lst full_sync start_time now).2 = some start_time) := by
  unfold sync_products
  cases h1 : env.moyskladFetch (modifiedSinceProducts full_sync lst now) with
  | error e => simp [h1]
  | ok ms =>
    cases h2 : env.shopifyFetch (modifiedSinceProducts full_sync lst now) with
    | error e => simp [h1, h2]
    | ok sps =>
      cases h3 : (if full_sync = false ∧ (modifiedSinceProducts full_sync lst now).isSome then
          env.moyskladFetch none else Except.ok ms) with
      | error e => simp [h1, h2, h3]
      | ok allMs =>
        cases h4 : (if full_sync = false ∧ (modifiedSinceProducts full_sync lst now).isSome then
            env.shopifyFetch none else Except.ok sps) with
        | error e => simp [h1, h2, h3, h4]
        | ok allSps => simp [h1, h2, h3, h4]

/-- Witness for C2: with a failing Moysklad fetch and watermark `some 5`, the
watermark after `sync_products` is still `some 5`. -/
theorem claim_C2_watermark_witness :
    (sync_products failingFetchEnv (some 5) false 10 10).2 = some 5 :=
  (claim_C2_watermark failingFetchEnv (some 5) false 10 10).1 ⟨"boom", rfl⟩

/-- C5 (counterexample): the claim asserts every phase defaults the cutoff to
`now − 24h` when no watermark exists and `full_sync` is false; the inventory
phase instead leaves `modified_since = None` (at `now = 0`, the claim demands
`some (−24)` but the code yields `none`). -/
theorem claim_C5_mode_counterexample :
    modifiedSinceInventory false none = none ∧
      (none : Option Int) ≠ some (0 - 24) := by
  constructor
  · rfl
  · decide

/-- C5 (amended): the mode resolution holds as claimed for the products
phase; for the inventory and price phases `full_sync=true` or an absent
watermark yield no cutoff at all (`none`, fetch everything) — the 24-hour
default exists only in `sync_products`. -/
theorem claim_C5_mode_resolution_amended (t now : Int) (lst : Option Int) :
    modifiedSinceProducts true lst now = none ∧
    modifiedSinceProducts false (some t) now = some t ∧
    modifiedSinceProducts false none now = some (now - 24) ∧
    modifiedSinceInventory true lst = none ∧
    modifiedSinceInventory false (some t) = some t ∧
    modifiedSinceInventory false none = none ∧
    modifiedSincePrices true lst = none ∧
    modifiedSincePrices false (some t) = some t ∧
    modifiedSincePrices false none = none := by
  refine ⟨?_, ?_, ?_, ?_, ?_, ?_, ?_, ?_, ?_⟩ <;>
    simp [modifiedSinceProducts, modifiedSinceInventory, modifiedSincePrices]

/-- C3 (code bug): in the moysklad→shopify direction the loop body of
`_sync_prices_moysklad_to_shopify` (line 518) compares — and line 519
sends — the Moysklad price without any unit conversion, although the
opposite direction of the same phase converts with
`price_to_moysklad_format` (×100, into Moysklad's minor unit) before
comparing, and the repository's `models/product.py` divides Moysklad prices
by 100 to obtain Shopify prices.  At the claim's own instance — Shopify
current price 19.99 and Moysklad source price 1999 kopecks, equal after
unit conversion (conjunct 1) — the code issues an update instead of
skipping, and the update carries the unconverted minor-unit value 1999 as
the new Shopify price (conjunct 2), which differs from the correctly
converted 19.99 (conjunct 3); the shopify→moysklad direction, which does
convert, skips this very pair (conjunct 4), as the claim demands. -/
theorem claim_C3_price_unit_bug :
    price_to_moysklad_format (1999/100) = 1999 ∧
    msToShopifyPriceAction sampleSp 1999 =
      some (.shopify sampleSp.id sampleSp.variant_id 1999) ∧
    (1999 : ℚ) ≠ 1999/100 ∧
    shopifyToMsPriceAction sampleMsKopeck (1999/100) = none := by
  refine ⟨?_, ?_, ?_, ?_⟩
  · unfold price_to_moysklad_format
    norm_num
  · unfold msToShopifyPriceAction sampleSp
    norm_num
  · norm_num
  · unfold shopifyToMsPriceAction price_to_moysklad_format sampleMsKopeck
    norm_num

/-- C4: for a source record with a non-empty identity key, the per-direction
reconciliation yields exactly one of: `create` when the target index has no
counterpart under that key; `skip` when a counterpart exists, both records
carry `updated_at`, and the source's is not strictly newer; and `update`
(carrying the target's existing id) in every remaining case. -/
theorem claim_C4_reconciliation_trichotomy
    (conv : MoyskladProduct → ShopifyProduct)
    (idx : String → Option ShopifyProduct) (m : MoyskladProduct)
    (hcode : m.code ≠ "") :
    (idx m.code = none →
      msToShopifyAction conv idx m = .create (conv m)) ∧
    (∀ sp, idx m.code = some sp →
      ((∃ mu su, m.updated_at = some mu ∧ sp.updated_at = some su ∧ mu ≤ su) →
          msToShopifyAction conv idx m = .skip) ∧
      (¬ (∃ mu su, m.updated_at = some mu ∧ sp.updated_at = some su ∧ mu ≤ su) →
          msToShopifyAction conv idx m = .update { conv m with id := sp.id })) := by
  constructor
  · intro hnone
    simp [msToShopifyAction, hnone]
  · intro sp hsome
    constructor
    · rintro ⟨mu, su, hmu, hsu, hle⟩
      simp [msToShopifyAction, hsome, updateShopifyProductAction, hmu, hsu, hle]
    · intro hnot
      cases hmu : m.updated_at with
      | none => simp [msToShopifyAction, hsome, updateShopifyProductAction, hmu]
      | some mu =>
        cases hsu : sp.updated_at with
        | none => simp [msToShopifyAction, hsome, updateShopifyProductAction, hmu, hsu]
        | some su =>
          have hgt : ¬ mu ≤ su := fun hle => hnot ⟨mu, su, hmu, hsu, hle⟩
          simp [msToShopifyAction, hsome, updateShopifyProductAction, hmu, hsu, hgt]

/-- Witness for C4: with an empty target index and a record keyed "X1", the
reconciliation creates the translated counterpart. -/
theorem claim_C4_reconciliation_witness :
    msToShopifyAction sampleConv (fun _ => none) sampleMsNewer
      = .create (sampleConv sampleMsNewer) :=
  (claim_C4_reconciliation_trichotomy sampleConv (fun _ => none) sampleMsNewer
    (by decide)).1 rfl

/-- C8: in both sync directions, whenever the reconciliation classifies a
record as `update`, the payload it sends carries the pre-existing platform
id of the counterpart record on the receiving side — line 263
(`updated_data.id = shopify_product.id`) and line 329
(`updated_data.id = moysklad_product.id`). -/
theorem claim_C8_update_preserves_id :
    (∀ (conv : MoyskladProduct → ShopifyProduct) (ms : MoyskladProduct)
        (sp : ShopifyProduct) (payload : ShopifyProduct),
      updateShopifyProductAction conv ms sp = .update payload → payload.id = sp.id) ∧
    (∀ (conv : ShopifyProduct → MoyskladProduct) (sp : ShopifyProduct)
        (ms : MoyskladProduct) (payload : MoyskladProduct),
      updateMoyskladProductAction conv sp ms = .update payload → payload.id = ms.id) := by
  constructor
  · intro conv ms sp payload h
    unfold updateShopifyProductAction at h
    repeat' split at h
    all_goals
      first
        | (injection h with h'; rw [← h'])
        | injection h
  · intro conv sp ms payload h
    unfold updateMoyskladProductAction at h
    repeat' split at h
    all_goals
      first
        | (injection h with h'; rw [← h'])
        | injection h

/-- Witness for C8: `sampleMsNewer` (updated 9) against `sampleSp`
(updated 7) is classified `update`, and its payload carries `sampleSp`'s
id. -/
theorem claim_C8_update_preserves_id_witness :
    sampleUpdatePayload.id = sampleSp.id :=
  claim_C8_update_preserves_id.1 sampleConv sampleMsNewer sampleSp
    sampleUpdatePayload (by decide)

/-- C6: the retry executor makes at most 3 attempts with a fixed
inter-attempt delay of 2 time units: failing twice then succeeding yields the
success outcome with exactly 3 invocations (and 2 sleeps, total delay 4);
failing three times yields the final error with exactly 3 invocations; and
the executor's behaviour depends only on the first three invocations — a
fourth call is never consulted. -/
theorem claim_C6_retry_bounded (E A : Type) (call : Nat → Except E A) :
    (∀ (e1 e2 : E) (a : A), call 1 = .error e1 → call 2 = .error e2 →
      call 3 = .ok a → retryWrapped 3 2 call = (.ok a, 3, 4)) ∧
    (∀ (e1 e2 e3 : E), call 1 = .error e1 → call 2 = .error e2 →
      call 3 = .error e3 → retryWrapped 3 2 call = (.error e3, 3, 4)) ∧
    (∀ call' : Nat → Except E A, (∀ i, i ≤ 3 → call i = call' i) →
      retryWrapped 3 2 call = retryWrapped 3 2 call') := by
  refine ⟨?_, ?_, ?_⟩
  · intro e1 e2 a h1 h2 h3
    simp [retryWrapped, retryGo, h1, h2, h3]
  · intro e1 e2 e3 h1 h2 h3
    simp [retryWrapped, retryGo, h1, h2, h3]
  · intro call' hagree
    have a1 := hagree 1 (by norm_num)
    have a2 := hagree 2 (by norm_num)
    have a3 := hagree 3 (by norm_num)
    simp only [retryWrapped, retryGo, a1, a2, a3]

/-- Witness for C6: a call failing on attempts 1 and 2 and returning 7 on
attempt 3 yields success with 3 invocations and total delay 4. -/
theorem claim_C6_retry_bounded_witness :
    retryWrapped 3 2 sampleRetryCall = (.ok 7, 3, 4) :=
  (claim_C6_retry_bounded String Nat sampleRetryCall).1 "e1" "e2" 7 rfl rfl rfl

/-- C7: the inventory updater issues a remote write exactly when the
computed target stock (the Moysklad stock, defaulting to 0 when absent)
differs from the Shopify side's currently known `inventory_quantity`; equal
values are skipped with no remote call, and an issued write always carries
the computed stock. -/
theorem claim_C7_inventory_skip (ms : MoyskladProduct) (sp : ShopifyProduct) :
    updateShopifyInventoryWrite ms sp =
      (if sp.inventory_quantity = some (ms.stock.getD 0) then none
       else some ⟨sp.id, sp.inventory_item_id, ms.stock.getD 0⟩) ∧
    (updateShopifyInventoryWrite ms sp = none ↔
      sp.inventory_quantity = some (ms.stock.getD 0)) := by
  refine ⟨?_, ?_⟩ <;>
  · cases hq : sp.inventory_quantity with
    | none => simp [updateShopifyInventoryWrite, hq]
    | some c =>
      by_cases hc : c = ms.stock.getD 0 <;>
        simp [updateShopifyInventoryWrite, hq, hc]

/-- C9: with any `price_sync_direction` other than the two recognized
values, the price sync phase issues no remote price updates and returns
normally (the warning branch of lines 475–476), so a complete or incremental
run whose earlier phases succeeded still finishes cleanly. -/
theorem claim_C9_invalid_direction (d : String)
    (ms : List MoyskladProduct) (sp : List ShopifyProduct)
    (h1 : d ≠ "moysklad_to_shopify") (h2 : d ≠ "shopify_to_moysklad") :
    sync_product_prices d ms sp = [] ∧
    run_complete_sync (.ok ()) (.ok ()) d ms sp = .ok [] := by
  have hp : sync_product_prices d ms sp = [] := by
    unfold sync_product_prices
    rw [if_neg h1, if_neg h2]
  exact ⟨hp, by simp [run_complete_sync, hp]⟩

/-- Witness for C9: the direction string "invalid" yields no price updates
and a clean complete run. -/
theorem claim_C9_invalid_direction_witness :
    sync_product_prices "invalid" [] [] = [] ∧
    run_complete_sync (.ok ()) (.ok ()) "invalid" [] [] = .ok [] :=
  claim_C9_invalid_direction "invalid" [] [] (by decide) (by decide)
